import Mathlib

/-!
Verification of the PowerPoint-to-PDF converter (Express server plus Angular
client) against its design specification.  The server logic is embedded from
src/server/src/server.ts; the client logic from the Angular component and the
two injectable services.  Filenames are modelled as lists of characters so
that the JavaScript string operations (endsWith, toLowerCase, regex replace,
concatenation) become explicit list functions.
-/

set_option linter.unusedVariables false

namespace PptPdf

/-- JavaScript strings, modelled as lists of characters. -/
abbrev Str := List Char

/-- Embeds String.prototype.toLowerCase, applied character by character. -/
def lowerStr (s : Str) : Str := s.map Char.toLower

/-- Embeds String.prototype.endsWith: case-sensitive suffix test. -/
def endsWith (s suffix : Str) : Bool := suffix.isSuffixOf s

/-- First entry of the PowerPoint MIME allow-list (server.ts line 69). -/
def mimePpt : String := "application/vnd.ms-powerpoint"

/-- Second entry of the PowerPoint MIME allow-list (server.ts line 70). -/
def mimePptx : String :=
  "application/vnd.openxmlformats-officedocument.presentationml.presentation"

/-- Embeds the multer fileFilter (server.ts lines 67-78): a file is accepted
iff its MIME type equals one of the two PowerPoint types or its original name
ends, case-sensitively via JS endsWith, in ".ppt" or ".pptx". -/
def fileFilter (mimetype : String) (originalname : Str) : Bool :=
  (mimetype == mimePpt) || (mimetype == mimePptx)
    || endsWith originalname ".ppt".data || endsWith originalname ".pptx".data

/-- Embeds limits.fileSize of the multer configuration (server.ts line 65). -/
def serverSizeLimit : Nat := 50 * 1024 * 1024

/-- Embeds the regex replace on server.ts line 154, where the original name is
rewritten with the pattern dot-(ppt|pptx)-end, case-insensitive flag, target
".pdf".  Because the pattern is anchored at the end of the string, the only
possible match is a trailing ".pptx" or, failing that, a trailing ".ppt",
compared after lowercasing; the matched suffix is replaced by ".pdf" and a
name without such a suffix is returned unchanged. -/
def outputFileName (originalname : Str) : Str :=
  if endsWith (lowerStr originalname) ".pptx".data then
    originalname.take (originalname.length - 5) ++ ".pdf".data
  else if endsWith (lowerStr originalname) ".ppt".data then
    originalname.take (originalname.length - 4) ++ ".pdf".data
  else
    originalname

/-- Embeds the identical regex replace in ConversionService.downloadPdf, which
derives the browser download name from the original file name. -/
def downloadPdfName (fileName : Str) : Str :=
  if endsWith (lowerStr fileName) ".pptx".data then
    fileName.take (fileName.length - 5) ++ ".pdf".data
  else if endsWith (lowerStr fileName) ".ppt".data then
    fileName.take (fileName.length - 4) ++ ".pdf".data
  else
    fileName

/-- Decimal digit rendered as a character, used to embed the JavaScript
number-to-string coercion of Date.now(). -/
def digitChar (d : Nat) : Char := Char.ofNat (48 + d)

/-- Decimal rendering of a natural number, embedding the implicit
number-to-string coercion in the expression Date.now() + "-" + name. -/
def natChars (n : Nat) : Str :=
  if n = 0 then ['0'] else (Nat.digits 10 n).reverse.map digitChar

/-- Embeds the multer diskStorage filename callback (server.ts lines 57-59):
the stored name is Date.now(), rendered in decimal, a dash, then the original
file name. -/
def tempFilename (ts : Nat) (originalname : Str) : Str :=
  natChars ts ++ '-' :: originalname

/-- Path of the uploaded scratch file: the diskStorage destination is the
directory uploads/ (server.ts line 55). -/
def tempFilePath (ts : Nat) (originalname : Str) : Str :=
  "uploads/".data ++ tempFilename ts originalname

/-- Embeds outputPath on server.ts line 155: join of uploads/ with the derived
output file name.  Note that no timestamp enters this path. -/
def outputPath (originalname : Str) : Str :=
  "uploads/".data ++ outputFileName originalname

/-- Multipart file descriptor as seen by the server. -/
structure UploadedFile where
  originalname : Str
  mimetype : String
  size : Nat
deriving DecidableEq

/-- Behaviour of the remote Google Drive service and of the local filesystem
during one request: whether files.create throws or returns an id, whether
files.export throws, and whether each of the three cleanup deletions throws. -/
structure RemoteBehavior where
  createResult : Except String (Option String)
  exportResult : Except String Unit
  deleteThrows : Bool
  unlinkTempThrows : Bool
  unlinkOutThrows : Bool

/-- Observable side effects of one request: remote Drive calls, local file
deletions, and the write of the produced PDF. -/
inductive Action where
  | filesCreate (name : Str)
  | filesExport (id : String)
  | filesDelete (id : String)
  | unlink (path : Str)
  | writePdf (path : Str)
deriving DecidableEq

/-- Whether an action is a call to the remote service. -/
def Action.isRemote : Action → Bool
  | .filesCreate _ => true
  | .filesExport _ => true
  | .filesDelete _ => true
  | _ => false

/-- Remote calls occurring in a trace of actions. -/
def remoteCalls (trace : List Action) : List Action := trace.filter Action.isRemote

/-- Third stage of cleanupFiles: the unlink of the output file (server.ts
lines 203-206), reached only if the earlier deletions did not throw. -/
def cleanupOut (outputFile : Option Str) : List Action :=
  match outputFile with
  | some p => [Action.unlink p]
  | none => []

/-- Second stage of cleanupFiles: the unlink of the uploaded temp file
(server.ts lines 199-202).  An exception aborts the shared try block, so the
output unlink is skipped when this unlink throws. -/
def cleanupLocal (b : RemoteBehavior) (tempFile outputFile : Option Str) : List Action :=
  match tempFile with
  | some p =>
    if b.unlinkTempThrows then [Action.unlink p]
    else Action.unlink p :: cleanupOut outputFile
  | none => cleanupOut outputFile

/-- Embeds cleanupFiles (server.ts lines 188-210).  All three deletions sit in
one try block whose catch only logs: the remote delete, the temp unlink and
the output unlink are attempted in that order, and an exception thrown by an
earlier deletion aborts the block, skipping the later ones.  The result is
the list of deletion actions actually attempted. -/
def cleanupFiles (b : RemoteBehavior) (uploadedFileId : Option String)
    (tempFile outputFile : Option Str) : List Action :=
  match uploadedFileId with
  | some id =>
    if b.deleteThrows then [Action.filesDelete id]
    else Action.filesDelete id :: cleanupLocal b tempFile outputFile
  | none => cleanupLocal b tempFile outputFile

/-- Body of an HTTP response: either the JSON error object with error and
optional details fields, or a file download with its suggested name. -/
inductive RespBody where
  | jsonError (error : String) (details : Option String)
  | download (path : Str) (filename : Str)
deriving DecidableEq

/-- HTTP response: status code and body. -/
structure Response where
  status : Nat
  body : RespBody
deriving DecidableEq

/-- Embeds the POST /api/convert handler body (server.ts lines 86-185),
parameterised by the remote behaviour and the upload timestamp.  Mirrors the
source control flow: missing file gives 400; a throw from files.create, or a
create response without id, is wrapped with the upload-failure message and
caught by the outer catch; a throw from files.export is wrapped with the
conversion-failure message and caught by the outer catch; the outer catch
runs cleanupFiles on whatever artifacts exist and answers 500 with the
wrapped message as details; on success the PDF is written, the download
response is sent, and cleanupFiles runs in the download callback. -/
def convertHandler (b : RemoteBehavior) (file : Option UploadedFile) (ts : Nat) :
    Response × List Action :=
  match file with
  | none => (⟨400, .jsonError "No file uploaded" none⟩, [])
  | some f =>
    let tempPath := tempFilePath ts f.originalname
    match b.createResult with
    | .error e =>
      (⟨500, .jsonError "Error converting file to PDF"
          (some ("Failed to upload to Google Drive: " ++ e))⟩,
       Action.filesCreate f.originalname :: cleanupFiles b none (some tempPath) none)
    | .ok none =>
      (⟨500, .jsonError "Error converting file to PDF"
          (some "Failed to upload to Google Drive: Failed to upload file to Google Drive")⟩,
       Action.filesCreate f.originalname :: cleanupFiles b none (some tempPath) none)
    | .ok (some id) =>
      match b.exportResult with
      | .error e =>
        (⟨500, .jsonError "Error converting file to PDF"
            (some ("Failed to convert to PDF: " ++ e))⟩,
         Action.filesCreate f.originalname :: Action.filesExport id ::
           cleanupFiles b (some id) (some tempPath) none)
      | .ok _ =>
        (⟨200, .download (outputPath f.originalname) (outputFileName f.originalname)⟩,
         Action.filesCreate f.originalname :: Action.filesExport id ::
           Action.writePdf (outputPath f.originalname) ::
           cleanupFiles b (some id) (some tempPath) (some (outputPath f.originalname)))

/-- Full request pipeline: the multer middleware applies fileFilter and the
fileSize limit before the route handler runs, so a rejected file never
reaches the handler and causes no remote call.  Modelled from the spec: the
HTTP status of these middleware rejections (the framework surfaces the filter
error and the size-limit error outside server.ts) is 400, as stated by the
specification for all client input errors. -/
def processRequest (b : RemoteBehavior) (file : Option UploadedFile) (ts : Nat) :
    Response × List Action :=
  match file with
  | none => convertHandler b none ts
  | some f =>
    if fileFilter f.mimetype f.originalname then
      if serverSizeLimit < f.size then
        (⟨400, .jsonError "File too large" none⟩, [])
      else convertHandler b (some f) ts
    else
      (⟨400, .jsonError "Only PowerPoint files are allowed!" none⟩, [])

/-- File descriptor as seen by the browser client. -/
structure ClientFile where
  name : Str
  type : String
  size : Nat

/-- Embeds validFileTypes of FileUploadService, the same two MIME strings as
validTypes of ConversionService. -/
def validFileTypes : List String := [mimePpt, mimePptx]

/-- Embeds FileUploadService.validateFileType: MIME membership or a
case-sensitive endsWith on ".ppt" or ".pptx". -/
def validateFileType (f : ClientFile) : Bool :=
  validFileTypes.contains f.type
    || endsWith f.name ".ppt".data || endsWith f.name ".pptx".data

/-- Embeds maxFileSize of FileUploadService: 10 MB in bytes. -/
def maxFileSize : Nat := 10 * 1024 * 1024

/-- Embeds FileUploadService.validateFileSize: size at most maxFileSize. -/
def validateFileSize (f : ClientFile) : Bool := f.size ≤ maxFileSize

/-- Embeds ConversionService.isValidPowerPointFile: MIME membership or an
extension test on the lowercased name, hence case-insensitive. -/
def isValidPowerPointFile (f : ClientFile) : Bool :=
  validFileTypes.contains f.type
    || endsWith (lowerStr f.name) ".ppt".data
    || endsWith (lowerStr f.name) ".pptx".data

/-- Fields of ConverterComponent that the claims mention. -/
structure ConverterState where
  isLoading : Bool
  errorMessage : String
  successMessage : String
  selectedFile : Option ClientFile
  conversionStatus : String
  uploadProgress : Nat

/-- Embeds ConverterComponent.onFileSelected: with a selected file, a failed
type check sets the inline type message and clears the selection, a failed
size check sets the inline size message and clears the selection, and a valid
file is stored while both messages are cleared. -/
def onFileSelected (s : ConverterState) (files : List ClientFile) : ConverterState :=
  match files with
  | [] => s
  | f :: _ =>
    if validateFileType f = false then
      { s with errorMessage := "Please select a PowerPoint file (.ppt or .pptx)",
               selectedFile := none }
    else if validateFileSize f = false then
      { s with errorMessage := "File size exceeds the maximum limit of 10MB",
               selectedFile := none }
    else
      { s with selectedFile := some f, errorMessage := "", successMessage := "" }

/-- Embeds one firing of the progress interval in convertToPdf: while the
progress is below 90 it advances by 10 and the status label is switched on
the new value; at 90 the tick does nothing. -/
def progressTick (s : ConverterState) : ConverterState :=
  if s.uploadProgress < 90 then
    let p := s.uploadProgress + 10
    { s with uploadProgress := p,
             conversionStatus :=
               if 30 ≤ p ∧ p < 60 then "Processing PowerPoint file..."
               else if 60 ≤ p ∧ p < 90 then "Converting to PDF..."
               else s.conversionStatus }
  else s

/-- Component state paired with whether the progress interval is running. -/
structure InFlight where
  comp : ConverterState
  timerActive : Bool

/-- Embeds the start of convertToPdf with a selected file: flags, messages,
status label and progress are initialised and the interval is started. -/
def convertStart (s : ConverterState) : InFlight :=
  ⟨{ s with isLoading := true, errorMessage := "", successMessage := "",
            conversionStatus := "Uploading file to server...", uploadProgress := 0 }, true⟩

/-- Events acting on an in-flight conversion: an interval firing, the arrival
of the successful server response, or the error callback. -/
inductive ClientEvent where
  | tick
  | success
  | failure (msg : String)

/-- Embeds the interval callback and the two subscription callbacks of
convertToPdf: a tick advances the simulated progress while the interval is
running; the next callback sets the progress to 100 and clears the interval;
the error callback clears the interval, resets the progress to 0 and stores
the error message. -/
def clientStep (st : InFlight) (e : ClientEvent) : InFlight :=
  match e with
  | .tick => if st.timerActive then { st with comp := progressTick st.comp } else st
  | .success =>
    ⟨{ st.comp with uploadProgress := 100, conversionStatus := "Finalizing..." }, false⟩
  | .failure msg =>
    let shown := if msg = "" then "An error occurred during conversion. Please try again." else msg
    ⟨{ st.comp with
        isLoading := false,
        conversionStatus := "",
        uploadProgress := 0,
        errorMessage := shown }, false⟩

/-- State after a number of interval firings. -/
def ticks (st : InFlight) : Nat → InFlight
  | 0 => st
  | n + 1 => clientStep (ticks st n) .tick

/-! ### Helper lemmas about the string model -/

theorem endsWith_iff {s t : Str} : endsWith s t = true ↔ t <:+ s :=
  List.isSuffixOf_iff_suffix

theorem endsWith_append (s t : Str) : endsWith (s ++ t) t = true :=
  endsWith_iff.mpr (List.suffix_append s t)

theorem lowerStr_append (a b : Str) : lowerStr (a ++ b) = lowerStr a ++ lowerStr b :=
  List.map_append _ a b

theorem rev_head_of_endsWith {s t : Str} (h : endsWith s t = true) (ht : t ≠ []) :
    s.reverse.head? = t.reverse.head? := by
  obtain ⟨u, rfl⟩ := endsWith_iff.mp h
  rw [List.reverse_append]
  cases hrev : t.reverse with
  | nil => exact absurd (List.reverse_eq_nil_iff.mp hrev) ht
  | cons c r => simp [hrev]

theorem endsWith_false_of_rev_head_ne {s t₁ t₂ : Str} (h₁ : endsWith s t₁ = true)
    (hne₁ : t₁ ≠ []) (hne₂ : t₂ ≠ []) (hh : t₁.reverse.head? ≠ t₂.reverse.head?) :
    endsWith s t₂ = false := by
  cases hc : endsWith s t₂ with
  | false => rfl
  | true =>
    have e₁ := rev_head_of_endsWith h₁ hne₁
    have e₂ := rev_head_of_endsWith hc hne₂
    exact absurd (e₁.symm.trans e₂) hh

theorem endsWith_lower_of_endsWith {s t : Str} (h : endsWith s t = true) :
    endsWith (lowerStr s) (lowerStr t) = true := by
  obtain ⟨u, rfl⟩ := endsWith_iff.mp h
  rw [lowerStr_append]
  exact endsWith_append _ _

theorem outputFileName_pptx {stem ext : Str} (h : lowerStr ext = ".pptx".data) :
    outputFileName (stem ++ ext) = stem ++ ".pdf".data := by
  have hlen : ext.length = 5 := by
    have hl := congrArg List.length h
    simpa [lowerStr] using hl
  have hlow : lowerStr (stem ++ ext) = lowerStr stem ++ ".pptx".data := by
    rw [lowerStr_append, h]
  have hcond : endsWith (lowerStr (stem ++ ext)) ".pptx".data = true := by
    rw [hlow]; exact endsWith_append _ _
  have htake : (stem ++ ext).length - 5 = stem.length := by
    rw [List.length_append, hlen]; omega
  simp only [outputFileName, hcond, if_true, htake, List.take_left]

theorem outputFileName_ppt {stem ext : Str} (h : lowerStr ext = ".ppt".data) :
    outputFileName (stem ++ ext) = stem ++ ".pdf".data := by
  have hlen : ext.length = 4 := by
    have hl := congrArg List.length h
    simpa [lowerStr] using hl
  have hlow : lowerStr (stem ++ ext) = lowerStr stem ++ ".ppt".data := by
    rw [lowerStr_append, h]
  have hcond : endsWith (lowerStr (stem ++ ext)) ".ppt".data = true := by
    rw [hlow]; exact endsWith_append _ _
  have hcond5 : endsWith (lowerStr (stem ++ ext)) ".pptx".data = false := by
    refine endsWith_false_of_rev_head_ne hcond (by decide) (by decide) (by decide)
  have htake : (stem ++ ext).length - 4 = stem.length := by
    rw [List.length_append, hlen]; omega
  simp only [outputFileName, hcond, hcond5, if_true, Bool.false_eq_true, if_false,
    htake, List.take_left]

theorem outputFileName_no_match {name : Str}
    (h1 : endsWith (lowerStr name) ".ppt".data = false)
    (h2 : endsWith (lowerStr name) ".pptx".data = false) :
    outputFileName name = name := by
  simp only [outputFileName, h1, h2, Bool.false_eq_true, if_false]

theorem downloadPdfName_eq (name : Str) : downloadPdfName name = outputFileName name := rfl

/-! ### Helper lemmas about the timestamped scratch name -/

theorem digitChar_inj_lt : ∀ a < 10, ∀ b < 10, digitChar a = digitChar b → a = b := by decide

theorem digitChar_ne_dash : ∀ a < 10, digitChar a ≠ '-' := by decide

theorem dash_not_mem_natChars (n : Nat) : '-' ∉ natChars n := by
  unfold natChars
  split
  · decide
  · intro hmem
    rw [List.mem_map] at hmem
    obtain ⟨d, hd, hdc⟩ := hmem
    rw [List.mem_reverse] at hd
    exact digitChar_ne_dash d (Nat.digits_lt_base (by norm_num) hd) hdc

theorem map_digitChar_inj : ∀ l₁ l₂ : List Nat, (∀ d ∈ l₁, d < 10) → (∀ d ∈ l₂, d < 10) →
    l₁.map digitChar = l₂.map digitChar → l₁ = l₂ := by
  intro l₁
  induction l₁ with
  | nil =>
    intro l₂ _ _ h
    cases l₂ with
    | nil => rfl
    | cons b u => simp at h
  | cons a t ih =>
    intro l₂ h₁ h₂ h
    cases l₂ with
    | nil => simp at h
    | cons b u =>
      simp only [List.map_cons, List.cons.injEq] at h
      obtain ⟨hab, htu⟩ := h
      have ha : a < 10 := h₁ a (List.mem_cons_self a t)
      have hb : b < 10 := h₂ b (List.mem_cons_self b u)
      have hab2 : a = b := digitChar_inj_lt a ha b hb hab
      have hrest := ih u (fun d hd => h₁ d (List.mem_cons_of_mem _ hd))
        (fun d hd => h₂ d (List.mem_cons_of_mem _ hd)) htu
      rw [hab2, hrest]

theorem digits_rev_bound (n : Nat) : ∀ d ∈ (Nat.digits 10 n).reverse, d < 10 :=
  fun d hd => Nat.digits_lt_base (by norm_num) (List.mem_reverse.mp hd)

theorem natChars_eq_singleton_zero {n : Nat} (h : natChars n = ['0']) : n = 0 := by
  by_contra hn
  unfold natChars at h
  rw [if_neg hn] at h
  have h0 : (Nat.digits 10 n).reverse.map digitChar = ([0] : List Nat).map digitChar := by
    rw [h]; decide
  have h1 := map_digitChar_inj _ _ (digits_rev_bound n) (by decide) h0
  have h2 : Nat.digits 10 n = [0] := by
    rw [← List.reverse_reverse (Nat.digits 10 n), h1]
    decide
  have h3 := Nat.ofDigits_digits 10 n
  rw [h2] at h3
  simp [Nat.ofDigits] at h3
  exact hn h3.symm

theorem natChars_inj {m n : Nat} (h : natChars m = natChars n) : m = n := by
  by_cases hm : m = 0 <;> by_cases hn : n = 0
  · rw [hm, hn]
  · subst hm
    exact absurd (natChars_eq_singleton_zero h.symm) hn
  · subst hn
    exact natChars_eq_singleton_zero h
  · unfold natChars at h
    rw [if_neg hm, if_neg hn] at h
    have h1 := map_digitChar_inj _ _ (digits_rev_bound m) (digits_rev_bound n) h
    have h2 := List.reverse_injective h1
    calc m = Nat.ofDigits 10 (Nat.digits 10 m) := (Nat.ofDigits_digits 10 m).symm
      _ = Nat.ofDigits 10 (Nat.digits 10 n) := by rw [h2]
      _ = n := Nat.ofDigits_digits 10 n

theorem append_dash_inj : ∀ a b u v : Str, '-' ∉ a → '-' ∉ b →
    a ++ '-' :: u = b ++ '-' :: v → a = b ∧ u = v := by
  intro a
  induction a with
  | nil =>
    intro b u v _ hb h
    cases b with
    | nil =>
      simp only [List.nil_append, List.cons.injEq] at h
      exact ⟨rfl, h.2⟩
    | cons x t =>
      simp only [List.nil_append, List.cons_append, List.cons.injEq] at h
      exact absurd (h.1 ▸ List.mem_cons_self x t) hb
  | cons x t ih =>
    intro b u v ha hb h
    cases b with
    | nil =>
      simp only [List.nil_append, List.cons_append, List.cons.injEq] at h
      exact absurd (h.1 ▸ List.mem_cons_self x t) ha
    | cons y s =>
      simp only [List.cons_append, List.cons.injEq] at h
      obtain ⟨hxy, h2⟩ := h
      have ha2 : '-' ∉ t := fun hmm => ha (List.mem_cons_of_mem _ hmm)
      have hb2 : '-' ∉ s := fun hmm => hb (List.mem_cons_of_mem _ hmm)
      obtain ⟨h3, h4⟩ := ih s u v ha2 hb2 h2
      exact ⟨by rw [hxy, h3], h4⟩

theorem tempFilename_inj {ts₁ ts₂ : Nat} {n₁ n₂ : Str}
    (h : tempFilename ts₁ n₁ = tempFilename ts₂ n₂) : ts₁ = ts₂ ∧ n₁ = n₂ := by
  obtain ⟨h1, h2⟩ := append_dash_inj _ _ _ _ (dash_not_mem_natChars ts₁)
    (dash_not_mem_natChars ts₂) h
  exact ⟨natChars_inj h1, h2⟩

theorem beq_false_of_ne {a b : String} (h : a ≠ b) : (a == b) = false := by
  cases hq : (a == b) with
  | false => rfl
  | true => exact absurd (eq_of_beq hq) h

/-! ### Claim theorems -/

/-- Claim C4: the returned and downloaded filename is the original filename
with its trailing PowerPoint extension replaced by .pdf, case-insensitively:
every name consisting of a stem followed by an extension whose lowercasing is
".ppt" or ".pptx" is mapped, by the server output name and by the client
download name, to the stem followed by ".pdf"; in particular deck.pptx gives
deck.pdf and Slides.PPT gives Slides.pdf. -/
theorem c4_extension_swap (stem ext : Str)
    (h : lowerStr ext = ".ppt".data ∨ lowerStr ext = ".pptx".data) :
    (outputFileName (stem ++ ext) = stem ++ ".pdf".data
      ∧ downloadPdfName (stem ++ ext) = stem ++ ".pdf".data)
    ∧ outputFileName "deck.pptx".data = "deck.pdf".data
    ∧ downloadPdfName "Slides.PPT".data = "Slides.pdf".data := by
  refine ⟨?_, by decide, by decide⟩
  cases h with
  | inl hp =>
    exact ⟨outputFileName_ppt hp, by rw [downloadPdfName_eq]; exact outputFileName_ppt hp⟩
  | inr hp =>
    exact ⟨outputFileName_pptx hp, by rw [downloadPdfName_eq]; exact outputFileName_pptx hp⟩

theorem c4_extension_swap_witness :
    (lowerStr ".PPT".data = ".ppt".data ∨ lowerStr ".PPT".data = ".pptx".data)
    ∧ ((outputFileName ("Slides".data ++ ".PPT".data) = "Slides".data ++ ".pdf".data
        ∧ downloadPdfName ("Slides".data ++ ".PPT".data) = "Slides".data ++ ".pdf".data)
      ∧ outputFileName "deck.pptx".data = "deck.pdf".data
      ∧ downloadPdfName "Slides.PPT".data = "Slides.pdf".data) :=
  ⟨Or.inl (by decide), c4_extension_swap "Slides".data ".PPT".data (Or.inl (by decide))⟩

/-- Claim C10: the output-filename derivation only replaces a trailing .ppt or
.pptx, read case-insensitively: a file accepted by MIME type whose name does
not end in .ppt or .pptx keeps its original name unchanged, both as the
server output name and as the client download name, with no .pdf appended. -/
theorem c10_accepted_name_unchanged (name : Str) (mime : String)
    (hmime : mime ∈ validFileTypes)
    (h1 : endsWith (lowerStr name) ".ppt".data = false)
    (h2 : endsWith (lowerStr name) ".pptx".data = false) :
    fileFilter mime name = true
    ∧ outputFileName name = name
    ∧ downloadPdfName name = name := by
  refine ⟨?_, outputFileName_no_match h1 h2,
    by rw [downloadPdfName_eq]; exact outputFileName_no_match h1 h2⟩
  have hm : mime = mimePpt ∨ mime = mimePptx := by simpa [validFileTypes] using hmime
  rcases hm with hm | hm <;> simp [fileFilter, hm]

theorem c10_accepted_name_unchanged_witness :
    ("application/vnd.ms-powerpoint" ∈ validFileTypes
      ∧ endsWith (lowerStr "notes.txt".data) ".ppt".data = false
      ∧ endsWith (lowerStr "notes.txt".data) ".pptx".data = false)
    ∧ (fileFilter "application/vnd.ms-powerpoint" "notes.txt".data = true
      ∧ outputFileName "notes.txt".data = "notes.txt".data
      ∧ downloadPdfName "notes.txt".data = "notes.txt".data) :=
  ⟨⟨by decide, by decide, by decide⟩,
    c10_accepted_name_unchanged "notes.txt".data "application/vnd.ms-powerpoint"
      (by decide) (by decide) (by decide)⟩

/-- Claim C9: for a MIME type outside the allow-list, the server filter
accepts exactly the names ending case-sensitively in the lowercase
extensions ".ppt" or ".pptx"; a name ending in ".PPT" or ".PPTX" is rejected
by the server filter although the client ConversionService check, which
lowercases the name first, accepts the same file. -/
theorem c9_case_sensitive_filter (name : Str) (mime : String) (sz : Nat)
    (hm1 : mime ≠ mimePpt) (hm2 : mime ≠ mimePptx) :
    (fileFilter mime name = true ↔
      (endsWith name ".ppt".data = true ∨ endsWith name ".pptx".data = true))
    ∧ ((endsWith name ".PPT".data = true ∨ endsWith name ".PPTX".data = true) →
        fileFilter mime name = false
        ∧ isValidPowerPointFile ⟨name, mime, sz⟩ = true) := by
  constructor
  · simp [fileFilter, beq_false_of_ne hm1, beq_false_of_ne hm2]
  · intro hcase
    have hlow : endsWith (lowerStr name) ".ppt".data = true
        ∨ endsWith (lowerStr name) ".pptx".data = true := by
      cases hcase with
      | inl h =>
        have hl := endsWith_lower_of_endsWith h
        rw [show lowerStr ".PPT".data = ".ppt".data from by decide] at hl
        exact Or.inl hl
      | inr h =>
        have hl := endsWith_lower_of_endsWith h
        rw [show lowerStr ".PPTX".data = ".pptx".data from by decide] at hl
        exact Or.inr hl
    have hppt : endsWith name ".ppt".data = false := by
      cases hcase with
      | inl h => exact endsWith_false_of_rev_head_ne h (by decide) (by decide) (by decide)
      | inr h => exact endsWith_false_of_rev_head_ne h (by decide) (by decide) (by decide)
    have hpptx : endsWith name ".pptx".data = false := by
      cases hcase with
      | inl h => exact endsWith_false_of_rev_head_ne h (by decide) (by decide) (by decide)
      | inr h => exact endsWith_false_of_rev_head_ne h (by decide) (by decide) (by decide)
    constructor
    · simp [fileFilter, beq_false_of_ne hm1, beq_false_of_ne hm2, hppt, hpptx]
    · rcases hlow with h | h <;> simp [isValidPowerPointFile, h]

theorem c9_case_sensitive_filter_witness :
    ("application/octet-stream" ≠ mimePpt ∧ "application/octet-stream" ≠ mimePptx)
    ∧ ((fileFilter "application/octet-stream" "Deck.PPTX".data = true ↔
        (endsWith "Deck.PPTX".data ".ppt".data = true
          ∨ endsWith "Deck.PPTX".data ".pptx".data = true))
      ∧ ((endsWith "Deck.PPTX".data ".PPT".data = true
          ∨ endsWith "Deck.PPTX".data ".PPTX".data = true) →
          fileFilter "application/octet-stream" "Deck.PPTX".data = false
          ∧ isValidPowerPointFile ⟨"Deck.PPTX".data, "application/octet-stream", 7⟩ = true)) :=
  ⟨⟨by decide, by decide⟩,
    c9_case_sensitive_filter "Deck.PPTX".data "application/octet-stream" 7
      (by decide) (by decide)⟩

/-- Concrete component state used to instantiate the client claims. -/
def initialConverterState : ConverterState := ⟨false, "", "", none, "", 0⟩

/-- Claim C7: on file selection, a file failing the local type check or the
local size check is rejected with an inline error message and the selection
is cleared; the client size check accepts a file iff its size is at most
10 MiB, which is stricter than the 50 MiB server ceiling. -/
theorem c7_client_validation (s : ConverterState) (f : ClientFile) (rest : List ClientFile)
    (h : validateFileType f = false ∨ validateFileSize f = false) :
    ((onFileSelected s (f :: rest)).errorMessage ≠ ""
      ∧ (onFileSelected s (f :: rest)).selectedFile = none)
    ∧ (validateFileSize f = true ↔ f.size ≤ 10 * 1024 * 1024)
    ∧ maxFileSize < serverSizeLimit := by
  refine ⟨?_, ?_, by decide⟩
  · have hstate : onFileSelected s (f :: rest)
        = { s with errorMessage := "Please select a PowerPoint file (.ppt or .pptx)",
                   selectedFile := none }
      ∨ onFileSelected s (f :: rest)
        = { s with errorMessage := "File size exceeds the maximum limit of 10MB",
                   selectedFile := none } := by
      cases ht : validateFileType f with
      | false => exact Or.inl (by simp [onFileSelected, ht])
      | true =>
        have hs : validateFileSize f = false := by
          rcases h with h | h
          · rw [ht] at h; exact absurd h (by decide)
          · exact h
        exact Or.inr (by simp [onFileSelected, ht, hs])
    rcases hstate with hs | hs
    · rw [hs]
      refine ⟨?_, rfl⟩
      show "Please select a PowerPoint file (.ppt or .pptx)" ≠ ""
      decide
    · rw [hs]
      refine ⟨?_, rfl⟩
      show "File size exceeds the maximum limit of 10MB" ≠ ""
      decide
  · simp [validateFileSize, maxFileSize]

theorem c7_client_validation_witness :
    (validateFileType ⟨"big.pptx".data, "application/vnd.ms-powerpoint",
        10 * 1024 * 1024 + 1⟩ = false
      ∨ validateFileSize ⟨"big.pptx".data, "application/vnd.ms-powerpoint",
          10 * 1024 * 1024 + 1⟩ = false)
    ∧ (((onFileSelected initialConverterState
          [⟨"big.pptx".data, "application/vnd.ms-powerpoint",
            10 * 1024 * 1024 + 1⟩]).errorMessage ≠ ""
        ∧ (onFileSelected initialConverterState
            [⟨"big.pptx".data, "application/vnd.ms-powerpoint",
              10 * 1024 * 1024 + 1⟩]).selectedFile = none)
      ∧ (validateFileSize ⟨"big.pptx".data, "application/vnd.ms-powerpoint",
            10 * 1024 * 1024 + 1⟩ = true
          ↔ (10 * 1024 * 1024 + 1 : Nat) ≤ 10 * 1024 * 1024)
      ∧ maxFileSize < serverSizeLimit) :=
  ⟨Or.inr (by decide),
    c7_client_validation initialConverterState
      ⟨"big.pptx".data, "application/vnd.ms-powerpoint", 10 * 1024 * 1024 + 1⟩ []
      (Or.inr (by decide))⟩

theorem ticks_timerActive (s : ConverterState) (n : Nat) :
    (ticks (convertStart s) n).timerActive = true := by
  induction n with
  | zero => rfl
  | succ k ih => simp [ticks, clientStep, ih]

theorem ticks_progress_invariant (s : ConverterState) (n : Nat) :
    (ticks (convertStart s) n).comp.uploadProgress ≤ 90
    ∧ (ticks (convertStart s) n).comp.uploadProgress % 10 = 0 := by
  induction n with
  | zero => exact ⟨by simp [ticks, convertStart], by simp [ticks, convertStart]⟩
  | succ k ih =>
    obtain ⟨h1, h2⟩ := ih
    have ht := ticks_timerActive s k
    by_cases hp : (ticks (convertStart s) k).comp.uploadProgress < 90
    · constructor <;> simp [ticks, clientStep, ht, progressTick, hp] <;> omega
    · constructor <;> simp [ticks, clientStep, ht, progressTick, hp] <;> assumption

/-- Claim C8: while a conversion is in flight, the simulated progress starts
at 0 and advances only on timer ticks, in steps of 10, never exceeding 90; a
further tick at 90 changes nothing; the progress becomes 100 exactly on the
success response; on error it is reset to 0 and the interval is cleared. -/
theorem c8_progress_simulation (s : ConverterState) (n : Nat) (m : String) :
    ((ticks (convertStart s) n).comp.uploadProgress ≤ 90
      ∧ (ticks (convertStart s) n).comp.uploadProgress % 10 = 0)
    ∧ (clientStep (ticks (convertStart s) n) ClientEvent.tick).comp.uploadProgress
        = (if (ticks (convertStart s) n).comp.uploadProgress < 90
            then (ticks (convertStart s) n).comp.uploadProgress + 10
            else (ticks (convertStart s) n).comp.uploadProgress)
    ∧ (clientStep (ticks (convertStart s) n) ClientEvent.success).comp.uploadProgress = 100
    ∧ (clientStep (ticks (convertStart s) n) (ClientEvent.failure m)).comp.uploadProgress = 0
    ∧ (clientStep (ticks (convertStart s) n) (ClientEvent.failure m)).timerActive = false := by
  have ht := ticks_timerActive s n
  refine ⟨ticks_progress_invariant s n, ?_, rfl, rfl, rfl⟩
  by_cases hp : (ticks (convertStart s) n).comp.uploadProgress < 90 <;>
    simp [clientStep, ht, progressTick, hp]

/-- Remote behaviour in which every call succeeds. -/
def sampleBehavior : RemoteBehavior :=
  ⟨Except.ok (some "gid"), Except.ok (), false, false, false⟩

/-- Claim C1: a multipart upload whose MIME type is neither PowerPoint type
and whose name ends in neither .ppt nor .pptx is rejected with status 400,
and no remote call (create, export or delete) is made in that run. -/
theorem c1_reject_non_powerpoint (b : RemoteBehavior) (f : UploadedFile) (ts : Nat)
    (hm1 : f.mimetype ≠ mimePpt) (hm2 : f.mimetype ≠ mimePptx)
    (he1 : endsWith f.originalname ".ppt".data = false)
    (he2 : endsWith f.originalname ".pptx".data = false) :
    (processRequest b (some f) ts).1.status = 400
    ∧ remoteCalls (processRequest b (some f) ts).2 = [] := by
  have hff : fileFilter f.mimetype f.originalname = false := by
    simp [fileFilter, beq_false_of_ne hm1, beq_false_of_ne hm2, he1, he2]
  simp [processRequest, hff, remoteCalls]

/-- Text file used to instantiate the rejection claim. -/
def textFile : UploadedFile := ⟨"notes.txt".data, "text/plain", 10⟩

theorem c1_reject_non_powerpoint_witness :
    (textFile.mimetype ≠ mimePpt ∧ textFile.mimetype ≠ mimePptx
      ∧ endsWith textFile.originalname ".ppt".data = false
      ∧ endsWith textFile.originalname ".pptx".data = false)
    ∧ ((processRequest sampleBehavior (some textFile) 3).1.status = 400
      ∧ remoteCalls (processRequest sampleBehavior (some textFile) 3).2 = []) :=
  ⟨⟨by decide, by decide, by decide, by decide⟩,
    c1_reject_non_powerpoint sampleBehavior textFile 3
      (by decide) (by decide) (by decide) (by decide)⟩

/-- Oversized file used to instantiate the size-limit claim. -/
def bigFile : UploadedFile :=
  ⟨"big.pptx".data, "application/vnd.ms-powerpoint", 50 * 1024 * 1024 + 1⟩

/-- Claim C6: an upload whose size exceeds the 50 MiB server ceiling is
rejected, and in such a run no remote create, export or delete call occurs. -/
theorem c6_size_limit_no_remote (b : RemoteBehavior) (f : UploadedFile) (ts : Nat)
    (h : serverSizeLimit < f.size) :
    (processRequest b (some f) ts).1.status = 400
    ∧ remoteCalls (processRequest b (some f) ts).2 = [] := by
  cases hff : fileFilter f.mimetype f.originalname with
  | false => simp [processRequest, hff, remoteCalls]
  | true => simp [processRequest, hff, h, remoteCalls]

theorem c6_size_limit_no_remote_witness :
    serverSizeLimit < bigFile.size
    ∧ ((processRequest sampleBehavior (some bigFile) 3).1.status = 400
      ∧ remoteCalls (processRequest sampleBehavior (some bigFile) 3).2 = []) :=
  ⟨by decide, c6_size_limit_no_remote sampleBehavior bigFile 3 (by decide)⟩

/-- Claim C3: when the remote export throws after a successful create, the
response is 500 with the JSON error body whose details text contains the
literal phrase identifying the PDF conversion failure, and a remote delete is
still attempted on the previously created file id. -/
theorem c3_export_failure (b : RemoteBehavior) (f : UploadedFile) (ts : Nat) (id e : String)
    (hff : fileFilter f.mimetype f.originalname = true)
    (hsz : f.size ≤ serverSizeLimit)
    (hc : b.createResult = Except.ok (some id))
    (he : b.exportResult = Except.error e) :
    (processRequest b (some f) ts).1.status = 500
    ∧ (processRequest b (some f) ts).1.body
        = RespBody.jsonError "Error converting file to PDF"
            (some ("Failed to convert to PDF: " ++ e))
    ∧ (∃ pre post : Str, ("Failed to convert to PDF: " ++ e).data
        = pre ++ "Failed to convert to PDF".data ++ post)
    ∧ Action.filesDelete id ∈ (processRequest b (some f) ts).2 := by
  have hns : ¬ serverSizeLimit < f.size := not_lt.mpr hsz
  have hpr : processRequest b (some f) ts = convertHandler b (some f) ts := by
    simp [processRequest, hff, hns]
  rw [hpr]
  refine ⟨?_, ?_, ?_, ?_⟩
  · simp [convertHandler, hc, he]
  · simp [convertHandler, hc, he]
  · refine ⟨[], ": ".data ++ e.data, ?_⟩
    rw [String.data_append]
    rw [show ("Failed to convert to PDF: ").data
        = "Failed to convert to PDF".data ++ ": ".data from by decide]
    simp
  · simp only [convertHandler, hc, he]
    cases hd : b.deleteThrows <;>
      simp [cleanupFiles, hd, List.mem_cons]

/-- Remote behaviour whose export call throws. -/
def exportFailBehavior : RemoteBehavior :=
  ⟨Except.ok (some "gid"), Except.error "boom", false, false, false⟩

/-- PowerPoint file used to instantiate the conversion claims. -/
def deckFile : UploadedFile := ⟨"deck.pptx".data, "application/vnd.ms-powerpoint", 1000⟩

theorem c3_export_failure_witness :
    (fileFilter deckFile.mimetype deckFile.originalname = true
      ∧ deckFile.size ≤ serverSizeLimit
      ∧ exportFailBehavior.createResult = Except.ok (some "gid")
      ∧ exportFailBehavior.exportResult = Except.error "boom")
    ∧ ((processRequest exportFailBehavior (some deckFile) 5).1.status = 500
      ∧ (processRequest exportFailBehavior (some deckFile) 5).1.body
          = RespBody.jsonError "Error converting file to PDF"
              (some ("Failed to convert to PDF: " ++ "boom"))
      ∧ (∃ pre post : Str, ("Failed to convert to PDF: " ++ "boom").data
          = pre ++ "Failed to convert to PDF".data ++ post)
      ∧ Action.filesDelete "gid" ∈ (processRequest exportFailBehavior (some deckFile) 5).2) :=
  ⟨⟨by decide, by decide, rfl, rfl⟩,
    c3_export_failure exportFailBehavior deckFile 5 "gid" "boom"
      (by decide) (by decide) rfl rfl⟩

/-- Remote behaviour whose delete call throws during cleanup. -/
def cexCleanupBehavior : RemoteBehavior :=
  ⟨Except.ok (some "gid"), Except.ok (), true, false, false⟩

/-- Claim C2 counterexample: with all three artifacts present and the remote
delete throwing, cleanup attempts only the remote delete; neither the temp
upload unlink nor the output unlink is attempted, because all three deletions
share one try block.  This refutes the claimed independence of the three
deletions at a concrete input. -/
theorem c2_counterexample :
    cexCleanupBehavior.deleteThrows = true
    ∧ cleanupFiles cexCleanupBehavior (some "gid")
        (some "uploads/1-deck.pptx".data) (some "uploads/deck.pdf".data)
      = [Action.filesDelete "gid"]
    ∧ Action.unlink "uploads/1-deck.pptx".data
        ∉ cleanupFiles cexCleanupBehavior (some "gid")
            (some "uploads/1-deck.pptx".data) (some "uploads/deck.pdf".data)
    ∧ Action.unlink "uploads/deck.pdf".data
        ∉ cleanupFiles cexCleanupBehavior (some "gid")
            (some "uploads/1-deck.pptx".data) (some "uploads/deck.pdf".data) :=
  ⟨rfl, by decide, by decide, by decide⟩

/-- Claim C2 as amended: the three deletions are attempted sequentially in the
order remote delete, temp unlink, output unlink, inside a single logged try
block: the remote delete is always attempted first; each later deletion is
attempted iff no earlier deletion threw, and a throw skips all later
deletions; no cleanup failure reaches the HTTP caller, since the response of
the request pipeline is unchanged under arbitrary cleanup-failure behaviour. -/
theorem c2_sequential_cleanup (b : RemoteBehavior) (i : String) (p q : Str)
    (file : Option UploadedFile) (ts : Nat) (dt ut uo : Bool) :
    Action.filesDelete i ∈ cleanupFiles b (some i) (some p) (some q)
    ∧ (b.deleteThrows = false →
        Action.unlink p ∈ cleanupFiles b (some i) (some p) (some q))
    ∧ (b.deleteThrows = false → b.unlinkTempThrows = false →
        cleanupFiles b (some i) (some p) (some q)
          = [Action.filesDelete i, Action.unlink p, Action.unlink q])
    ∧ (b.deleteThrows = true →
        cleanupFiles b (some i) (some p) (some q) = [Action.filesDelete i])
    ∧ (b.deleteThrows = false → b.unlinkTempThrows = true →
        cleanupFiles b (some i) (some p) (some q)
          = [Action.filesDelete i, Action.unlink p])
    ∧ (processRequest { b with
          deleteThrows := dt,
          unlinkTempThrows := ut,
          unlinkOutThrows := uo } file ts).1 = (processRequest b file ts).1 := by
  refine ⟨?_, ?_, ?_, ?_, ?_, ?_⟩
  · cases hd : b.deleteThrows <;> simp [cleanupFiles, hd]
  · intro hd
    simp [cleanupFiles, cleanupLocal, hd]
    cases hu : b.unlinkTempThrows <;> simp [hu, cleanupOut]
  · intro hd hu
    simp [cleanupFiles, cleanupLocal, cleanupOut, hd, hu]
  · intro hd
    simp [cleanupFiles, hd]
  · intro hd hu
    simp [cleanupFiles, cleanupLocal, cleanupOut, hd, hu]
  · cases file with
    | none => rfl
    | some f =>
      simp only [processRequest]
      cases hff : fileFilter f.mimetype f.originalname with
      | false => simp [hff]
      | true =>
        by_cases hsz : serverSizeLimit < f.size
        · simp [hff, hsz]
        · simp only [hff, hsz, if_true, if_false]
          simp only [convertHandler]
          cases hcr : b.createResult with
          | error e => simp [hcr]
          | ok oid =>
            cases oid with
            | none => simp [hcr]
            | some id =>
              cases her : b.exportResult with
              | error e => simp [hcr, her]
              | ok z => simp [hcr, her]

/-- Remote behaviour in which every call succeeds, a second copy used for the
cleanup witness. -/
def okCleanupBehavior : RemoteBehavior :=
  ⟨Except.ok (some "gid"), Except.ok (), false, false, false⟩

theorem c2_sequential_cleanup_witness :
    okCleanupBehavior.deleteThrows = false
    ∧ Action.unlink "uploads/1-d.pptx".data
        ∈ cleanupFiles okCleanupBehavior (some "gid")
            (some "uploads/1-d.pptx".data) (some "uploads/d.pdf".data) :=
  ⟨rfl, (c2_sequential_cleanup okCleanupBehavior "gid" "uploads/1-d.pptx".data
    "uploads/d.pdf".data none 0 true true true).2.1 rfl⟩

/-- Claim C5 counterexample: two requests distinct as requests (their upload
timestamps differ) but carrying the same original filename write the same
output PDF path, since the output path is derived from the original filename
alone.  This refutes the claim that every scratch path is distinct between
every two distinct requests. -/
theorem c5_counterexample :
    ((1000 : Nat), "deck.pptx".data) ≠ ((2000 : Nat), "deck.pptx".data)
    ∧ outputPath "deck.pptx".data = outputPath "deck.pptx".data :=
  ⟨by decide, rfl⟩

/-- Claim C5 as amended: the uploaded temp path is distinct between any two
requests that differ in upload timestamp or in original filename, but the
output PDF path depends only on the original filename: it is distinct only
when the derived output names differ, so two requests whose original
filenames derive the same PDF name share one output path. -/
theorem c5_scratch_paths (ts₁ ts₂ : Nat) (n₁ n₂ : Str) (h : ts₁ ≠ ts₂ ∨ n₁ ≠ n₂) :
    tempFilePath ts₁ n₁ ≠ tempFilePath ts₂ n₂
    ∧ (outputFileName n₁ ≠ outputFileName n₂ → outputPath n₁ ≠ outputPath n₂) := by
  constructor
  · intro hcontra
    simp only [tempFilePath] at hcontra
    have h1 : tempFilename ts₁ n₁ = tempFilename ts₂ n₂ :=
      List.append_cancel_left hcontra
    obtain ⟨hts, hn⟩ := tempFilename_inj h1
    rcases h with h | h
    · exact h hts
    · exact h hn
  · intro hne hcontra
    simp only [outputPath] at hcontra
    exact hne (List.append_cancel_left hcontra)

theorem c5_scratch_paths_witness :
    ((1 : Nat) ≠ 2 ∨ "a.pptx".data ≠ "a.pptx".data)
    ∧ (tempFilePath 1 "a.pptx".data ≠ tempFilePath 2 "a.pptx".data
      ∧ (outputFileName "a.pptx".data ≠ outputFileName "a.pptx".data →
          outputPath "a.pptx".data ≠ outputPath "a.pptx".data)) :=
  ⟨Or.inl (by decide),
    c5_scratch_paths 1 2 "a.pptx".data "a.pptx".data (Or.inl (by decide))⟩

end PptPdf
